import Mathlib

/-!
Shallow embedding of the beam-analysis core of the repository.

The repository carries two versions of the beam-analysis module
(`BeamAnalysis` with the analyzers `simplySupported` and `twoSpanUnequal`).
They are embedded here as the namespaces `Impl1` (the first version) and
`Impl2` (the second version).  JavaScript numbers are modelled by `ℚ`
(exact arithmetic); the polymorphic values an equation closure can return
(`{x, y}` points, two-point arrays, strings, `undefined`, and the
`{x, deflection: null}` object) are modelled by the inductive `EqResult`.
-/

set_option autoImplicit false

/-- Material properties record; the analyzers read the keys `EI` and `j2`. -/
structure MaterialProperties where
  EI : ℚ
  j2 : ℚ
deriving DecidableEq, Repr

/-- Beam material specification: a name plus a property record. -/
structure Material where
  name : String
  properties : MaterialProperties
deriving DecidableEq, Repr

/-- Beam geometry: primary span, secondary span and a material. -/
structure Beam where
  primarySpan : ℚ
  secondarySpan : ℚ
  material : Material
deriving DecidableEq, Repr

/-- A sample point `{x, y}` where `y` may be `null` (`none`). -/
structure Point where
  x : ℚ
  y : Option ℚ
deriving DecidableEq, Repr

/-- The values an equation closure can return:
a single point, an ordered two-point array (left/right limit at a
discontinuity), the object `{x, deflection: null}` (which has no `y`
field), a plain string, or `undefined` (the function body falls through
without returning). -/
inductive EqResult where
  | point (p : Point)
  | pair (p1 p2 : Point)
  | deflectionNull (x : ℚ)
  | invalidInput (msg : String)
  | undefined
deriving DecidableEq, Repr

/-- An argument passed to an equation closure: either a JavaScript number,
or a non-numeric value whose numeric coercion is `NaN` (for example
`undefined` or a non-numeric string), so that every `<`/`≤` comparison
against it is false. -/
inductive JsInput where
  | num (q : ℚ)
  | nonNum
deriving DecidableEq, Repr

/-- Model of JavaScript `parseFloat(v.toFixed(2))`: round to two decimal
places, halves away from zero (ECMAScript `Number.prototype.toFixed`). -/
def jsToFixed2 (q : ℚ) : ℚ :=
  if 0 ≤ q then (⌊q * 100 + 1 / 2⌋ : ℚ) / 100 else -((⌊-(q * 100) + 1 / 2⌋ : ℚ) / 100)

namespace Impl1

namespace SimplySupported

/-- First version, `simplySupported.getDeflectionEquation`:
`y = w·x·(L³ − 2·L·x² + x³) / (24·EI)` on `[0, L]`, else `{x, y: null}`. -/
def getDeflectionEquation (beam : Beam) (load : ℚ) (x : ℚ) : EqResult :=
  if 0 ≤ x ∧ x ≤ beam.primarySpan then
    .point ⟨x, some ((load * x * (beam.primarySpan ^ 3 - 2 * beam.primarySpan * x ^ 2 + x ^ 3)) /
      (24 * beam.material.properties.EI))⟩
  else
    .point ⟨x, none⟩

/-- First version, `simplySupported.getBendingMomentEquation`:
`y = (w·x·(L − x))/2` on `[0, L]`, else `{x, y: null}`. -/
def getBendingMomentEquation (beam : Beam) (load : ℚ) (x : ℚ) : EqResult :=
  if 0 ≤ x ∧ x ≤ beam.primarySpan then
    .point ⟨x, some ((load * x * (beam.primarySpan - x)) / 2)⟩
  else
    .point ⟨x, none⟩

/-- First version, `simplySupported.getShearForceEquation`:
`y = w·(L/2 − x)` on `[0, L]`, else `{x, y: null}`. -/
def getShearForceEquation (beam : Beam) (load : ℚ) (x : ℚ) : EqResult :=
  if 0 ≤ x ∧ x ≤ beam.primarySpan then
    .point ⟨x, some (load * (beam.primarySpan / 2 - x))⟩
  else
    .point ⟨x, none⟩

end SimplySupported

namespace TwoSpanUnequal

/-- First version, `twoSpanUnequal.getDeflectionEquation`: span-1 uses the
simply-supported form on `L1`; span-2 uses the same form on `L2` with
`x2 = x − L1`; else `{x, y: null}`. -/
def getDeflectionEquation (beam : Beam) (load : ℚ) (x : ℚ) : EqResult :=
  if 0 ≤ x ∧ x ≤ beam.primarySpan then
    .point ⟨x, some ((load * x * (beam.primarySpan ^ 3 - 2 * beam.primarySpan * x ^ 2 + x ^ 3)) /
      (24 * beam.material.properties.EI))⟩
  else if beam.primarySpan < x ∧ x ≤ beam.primarySpan + beam.secondarySpan then
    .point ⟨x, some ((load * (x - beam.primarySpan) *
      (beam.secondarySpan ^ 3 - 2 * beam.secondarySpan * (x - beam.primarySpan) ^ 2 +
        (x - beam.primarySpan) ^ 3)) / (24 * beam.material.properties.EI))⟩
  else
    .point ⟨x, none⟩

/-- First version, `twoSpanUnequal.getBendingMomentEquation`: span-1 is
`(w·x·(L1 − x))/2`; span-2 is `−(w·x2·(L2 − x2))/2` with `x2 = x − L1`;
else `{x, y: null}`. -/
def getBendingMomentEquation (beam : Beam) (load : ℚ) (x : ℚ) : EqResult :=
  if 0 ≤ x ∧ x ≤ beam.primarySpan then
    .point ⟨x, some ((load * x * (beam.primarySpan - x)) / 2)⟩
  else if beam.primarySpan < x ∧ x ≤ beam.primarySpan + beam.secondarySpan then
    .point ⟨x, some (-(load * (x - beam.primarySpan) *
      (beam.secondarySpan - (x - beam.primarySpan))) / 2)⟩
  else
    .point ⟨x, none⟩

/-- First version, `twoSpanUnequal.getShearForceEquation`: span-1 is
`w·(L1/2 − x)`; span-2 is `w·(L2/2 − x2)` with `x2 = x − L1`;
else `{x, y: null}`. -/
def getShearForceEquation (beam : Beam) (load : ℚ) (x : ℚ) : EqResult :=
  if 0 ≤ x ∧ x ≤ beam.primarySpan then
    .point ⟨x, some (load * (beam.primarySpan / 2 - x))⟩
  else if beam.primarySpan < x ∧ x ≤ beam.primarySpan + beam.secondarySpan then
    .point ⟨x, some (load * (beam.secondarySpan / 2 - (x - beam.primarySpan)))⟩
  else
    .point ⟨x, none⟩

end TwoSpanUnequal

end Impl1

namespace Impl2

namespace SimplySupported

/-- Second version, `simplySupported.getDeflectionEquation`: on `[0, L]`,
`deflection = −((w·x)/(24·EI))·(L³ − 2·L·x² + x³)·j2·1000` and
`y = parseFloat((deflection · 1e9).toFixed(2))`; outside the domain the
function returns the object `{x, deflection: null}`, which has no `y`
field. -/
def getDeflectionEquation (beam : Beam) (load : ℚ) (x : ℚ) : EqResult :=
  if 0 ≤ x ∧ x ≤ beam.primarySpan then
    .point ⟨x, some (jsToFixed2 ((-((load * x) / (24 * beam.material.properties.EI)) *
      (beam.primarySpan ^ 3 - 2 * beam.primarySpan * x ^ 2 + x ^ 3) *
      beam.material.properties.j2 * 1000) * 1000000000))⟩
  else
    .deflectionNull x

/-- Second version, `simplySupported.getBendingMomentEquation`:
`y = ((w·x)/2)·(L − x)` on `[0, L]`, else `{x, y: null}`. -/
def getBendingMomentEquation (beam : Beam) (load : ℚ) (x : ℚ) : EqResult :=
  if 0 ≤ x ∧ x ≤ beam.primarySpan then
    .point ⟨x, some (((load * x) / 2) * (beam.primarySpan - x))⟩
  else
    .point ⟨x, none⟩

/-- Second version, `simplySupported.getShearForceEquation`:
`y = w·(L/2 − x)` on `[0, L]`, else `{x, y: null}`. -/
def getShearForceEquation (beam : Beam) (load : ℚ) (x : ℚ) : EqResult :=
  if 0 ≤ x ∧ x ≤ beam.primarySpan then
    .point ⟨x, some (load * (beam.primarySpan / 2 - x))⟩
  else
    .point ⟨x, none⟩

end SimplySupported

namespace TwoSpanUnequal

/-- Interior-support moment computed inside every second-version two-span
closure: `M1 = −((w·L1³ + w·L1³) / (8·(L1 + L2)))`. -/
def M1 (beam : Beam) (load : ℚ) : ℚ :=
  -((load * beam.primarySpan ^ 3 + load * beam.primarySpan ^ 3) /
    (8 * (beam.primarySpan + beam.secondarySpan)))

/-- Left-support reaction: `R1 = M1/L1 + (w·L1)/2`. -/
def R1 (beam : Beam) (load : ℚ) : ℚ :=
  M1 beam load / beam.primarySpan + load * beam.primarySpan / 2

/-- Right-support reaction: `R3 = M1/L2 + (w·L2)/2`. -/
def R3 (beam : Beam) (load : ℚ) : ℚ :=
  M1 beam load / beam.secondarySpan + load * beam.secondarySpan / 2

/-- Interior-support reaction by force balance:
`R2 = w·L1 + w·L2 − R1 − R3`. -/
def R2 (beam : Beam) (load : ℚ) : ℚ :=
  load * beam.primarySpan + load * beam.secondarySpan - R1 beam load - R3 beam load

/-- Second version, `twoSpanUnequal.getDeflectionEquation`.  The closure
has no `typeof` guard, so a non-numeric argument fails every range
comparison and the body falls through returning `undefined`; the
out-of-range validation is commented out in the source, so a numeric `x`
outside `[0, L1 + L2]` also falls through to `undefined`. -/
def getDeflectionEquation (beam : Beam) (load : ℚ) (input : JsInput) : EqResult :=
  match input with
  | .nonNum => .undefined
  | .num x =>
    if 0 ≤ x ∧ x ≤ beam.primarySpan then
      .point ⟨x, some ((x / (24 * (beam.material.properties.EI / 1000 ^ 3))) *
        (4 * R1 beam load * x ^ 2 - load * x ^ 3 + load * beam.primarySpan ^ 3 -
          4 * R1 beam load * beam.primarySpan ^ 2) * 1000 * beam.material.properties.j2)⟩
    else if beam.primarySpan < x ∧ x ≤ beam.primarySpan + beam.secondarySpan then
      .point ⟨x, some ((1 / (beam.material.properties.EI / 1000 ^ 3)) *
        ((R1 beam load * x) / 6) * (x ^ 2 - beam.primarySpan ^ 2) +
        ((R2 beam load * x) / 6) *
          (x ^ 2 - 3 * beam.primarySpan * x + 3 * beam.primarySpan ^ 2) -
        (R2 beam load * beam.primarySpan ^ 3) / 6 -
        ((load * x) / 24) * (x ^ 3 - beam.primarySpan ^ 3))⟩
    else
      .undefined

/-- Second version, `twoSpanUnequal.getBendingMomentEquation`: a `typeof`
guard returns a string for non-numeric input; otherwise the piecewise
moment with the pair `[left, right]` at `x = L1`. -/
def getBendingMomentEquation (beam : Beam) (load : ℚ) (input : JsInput) : EqResult :=
  match input with
  | .nonNum => .invalidInput "Invalid input: x must be a number."
  | .num x =>
    if x = 0 then
      .point ⟨x, some 0⟩
    else if 0 < x ∧ x < beam.primarySpan then
      .point ⟨x, some (R1 beam load * x - (load * x ^ 2) / 2)⟩
    else if x = beam.primarySpan then
      .pair ⟨x, some (R1 beam load * beam.primarySpan - (load * beam.primarySpan ^ 2) / 2)⟩
        ⟨x, some (R1 beam load * beam.primarySpan + R2 beam load * 0 -
          (load * beam.primarySpan ^ 2) / 2)⟩
    else if beam.primarySpan < x ∧ x < beam.primarySpan + beam.secondarySpan then
      .point ⟨x, some (R1 beam load * x + R2 beam load * (x - beam.primarySpan) -
        (load * x ^ 2) / 2)⟩
    else if x = beam.primarySpan + beam.secondarySpan then
      .point ⟨x, some (R1 beam load * (beam.primarySpan + beam.secondarySpan) +
        R2 beam load * (beam.primarySpan + beam.secondarySpan - beam.primarySpan) -
        (load * (beam.primarySpan + beam.secondarySpan) ^ 2) / 2)⟩
    else
      .point ⟨x, none⟩

/-- Second version, `twoSpanUnequal.getShearForceEquation`: a `typeof`
guard returns a string for non-numeric input; otherwise the piecewise
shear with the pair `[R1 − w·L1, R1 + R2 − w·L1]` at `x = L1`. -/
def getShearForceEquation (beam : Beam) (load : ℚ) (input : JsInput) : EqResult :=
  match input with
  | .nonNum => .invalidInput "Invalid input: x must be a number."
  | .num x =>
    if x = 0 then
      .point ⟨x, some (R1 beam load)⟩
    else if 0 < x ∧ x < beam.primarySpan then
      .point ⟨x, some (R1 beam load - load * x)⟩
    else if x = beam.primarySpan then
      .pair ⟨x, some (R1 beam load - load * beam.primarySpan)⟩
        ⟨x, some (R1 beam load + R2 beam load - load * beam.primarySpan)⟩
    else if beam.primarySpan < x ∧ x < beam.primarySpan + beam.secondarySpan then
      .point ⟨x, some (R1 beam load + R2 beam load - load * x)⟩
    else if x = beam.primarySpan + beam.secondarySpan then
      .point ⟨x, some (R1 beam load + R2 beam load -
        load * (beam.primarySpan + beam.secondarySpan))⟩
    else
      .point ⟨x, none⟩

end TwoSpanUnequal

/-- The analyzers registered in the `BeamAnalysis` constructor, keyed by
condition string. -/
inductive AnalyzerKind where
  | simplySupported
  | twoSpanUnequal
deriving DecidableEq, Repr

/-- Lookup in the analyzer registry `this.analyzer[condition]`: only the
keys `"simply-supported"` and `"two-span-unequal"` are present. -/
def analyzerFor (condition : String) : Option AnalyzerKind :=
  if condition = "simply-supported" then some .simplySupported
  else if condition = "two-span-unequal" then some .twoSpanUnequal
  else none

/-- The bundle returned by a successful facade call:
`{beam, load, equation, condition}`. -/
structure AnalysisResult where
  beam : Beam
  load : ℚ
  equation : ℚ → EqResult
  condition : String

/-- Facade `BeamAnalysis.getDeflection`: dispatch on the registered
analyzer, or throw `Error("Invalid condition")`. -/
def getDeflection (beam : Beam) (load : ℚ) (condition : String) :
    Except String AnalysisResult :=
  match analyzerFor condition with
  | some .simplySupported =>
    .ok ⟨beam, load, SimplySupported.getDeflectionEquation beam load, condition⟩
  | some .twoSpanUnequal =>
    .ok ⟨beam, load, fun q => TwoSpanUnequal.getDeflectionEquation beam load (.num q), condition⟩
  | none => .error "Invalid condition"

/-- Facade `BeamAnalysis.getBendingMoment`: dispatch on the registered
analyzer, or throw `Error("Invalid condition")`. -/
def getBendingMoment (beam : Beam) (load : ℚ) (condition : String) :
    Except String AnalysisResult :=
  match analyzerFor condition with
  | some .simplySupported =>
    .ok ⟨beam, load, SimplySupported.getBendingMomentEquation beam load, condition⟩
  | some .twoSpanUnequal =>
    .ok ⟨beam, load, fun q => TwoSpanUnequal.getBendingMomentEquation beam load (.num q), condition⟩
  | none => .error "Invalid condition"

/-- Facade `BeamAnalysis.getShearForce`: dispatch on the registered
analyzer, or throw `Error("Invalid condition")`. -/
def getShearForce (beam : Beam) (load : ℚ) (condition : String) :
    Except String AnalysisResult :=
  match analyzerFor condition with
  | some .simplySupported =>
    .ok ⟨beam, load, SimplySupported.getShearForceEquation beam load, condition⟩
  | some .twoSpanUnequal =>
    .ok ⟨beam, load, fun q => TwoSpanUnequal.getShearForceEquation beam load (.num q), condition⟩
  | none => .error "Invalid condition"

end Impl2

/-! Theorems settling the claims. -/

/-- A concrete beam used by the concrete scenarios:
`{primarySpan: 4, secondarySpan: 0, material: {EI: 1}}` (with `j2 = 1`). -/
def specBeam : Beam := ⟨4, 0, ⟨"spec", ⟨1, 1⟩⟩⟩

/-- C1: for a beam with `L ≥ 0`, any load `w`, and any `x` with
`0 ≤ x ≤ L`, both simply-supported `getBendingMomentEquation`
implementations return the point `{x, y: w·x·(L − x)/2}`. -/
theorem claim_C1_simply_supported_moment (beam : Beam) (load x : ℚ)
    (hL : 0 ≤ beam.primarySpan) (hx0 : 0 ≤ x) (hxL : x ≤ beam.primarySpan) :
    Impl1.SimplySupported.getBendingMomentEquation beam load x =
      .point ⟨x, some (load * x * (beam.primarySpan - x) / 2)⟩ ∧
    Impl2.SimplySupported.getBendingMomentEquation beam load x =
      .point ⟨x, some (load * x * (beam.primarySpan - x) / 2)⟩ := by
  constructor
  · rw [Impl1.SimplySupported.getBendingMomentEquation, if_pos ⟨hx0, hxL⟩]
  · rw [Impl2.SimplySupported.getBendingMomentEquation, if_pos ⟨hx0, hxL⟩]
    have h : load * x / 2 * (beam.primarySpan - x) = load * x * (beam.primarySpan - x) / 2 := by
      ring
    rw [h]

/-- C1 witness: the concrete scenario, `beam = specBeam`, `load = 10`,
`x = 2`, yields `{x: 2, y: 20}` from both implementations. -/
theorem claim_C1_witness :
    Impl1.SimplySupported.getBendingMomentEquation specBeam 10 2 = .point ⟨2, some 20⟩ ∧
    Impl2.SimplySupported.getBendingMomentEquation specBeam 10 2 = .point ⟨2, some 20⟩ := by
  have h := claim_C1_simply_supported_moment specBeam 10 2 (by norm_num [specBeam])
    (by norm_num) (by norm_num [specBeam])
  norm_num [specBeam] at h
  exact h

/-- C9: the two simply-supported bending-moment implementations are
extensionally equal: at every beam, load and position they return the
same result. -/
theorem claim_C9_duplicate_moment_implementations_agree (beam : Beam) (load x : ℚ) :
    Impl1.SimplySupported.getBendingMomentEquation beam load x =
      Impl2.SimplySupported.getBendingMomentEquation beam load x := by
  rw [Impl1.SimplySupported.getBendingMomentEquation,
    Impl2.SimplySupported.getBendingMomentEquation]
  by_cases h : 0 ≤ x ∧ x ≤ beam.primarySpan
  · rw [if_pos h, if_pos h]
    have e : load * x * (beam.primarySpan - x) / 2 = load * x / 2 * (beam.primarySpan - x) := by
      ring
    rw [e]
  · rw [if_neg h, if_neg h]

/-- C10: the simply-supported analyzers never read `secondarySpan`: two
beams agreeing on `primarySpan` and `material` give identical deflection,
bending-moment and shear-force results in both implementations, for every
load and position. -/
theorem claim_C10_simply_supported_ignores_secondary_span (b1 b2 : Beam) (load x : ℚ)
    (hp : b1.primarySpan = b2.primarySpan) (hm : b1.material = b2.material) :
    Impl1.SimplySupported.getDeflectionEquation b1 load x =
      Impl1.SimplySupported.getDeflectionEquation b2 load x ∧
    Impl1.SimplySupported.getBendingMomentEquation b1 load x =
      Impl1.SimplySupported.getBendingMomentEquation b2 load x ∧
    Impl1.SimplySupported.getShearForceEquation b1 load x =
      Impl1.SimplySupported.getShearForceEquation b2 load x ∧
    Impl2.SimplySupported.getDeflectionEquation b1 load x =
      Impl2.SimplySupported.getDeflectionEquation b2 load x ∧
    Impl2.SimplySupported.getBendingMomentEquation b1 load x =
      Impl2.SimplySupported.getBendingMomentEquation b2 load x ∧
    Impl2.SimplySupported.getShearForceEquation b1 load x =
      Impl2.SimplySupported.getShearForceEquation b2 load x := by
  refine ⟨?_, ?_, ?_, ?_, ?_, ?_⟩ <;>
    simp only [Impl1.SimplySupported.getDeflectionEquation,
      Impl1.SimplySupported.getBendingMomentEquation,
      Impl1.SimplySupported.getShearForceEquation,
      Impl2.SimplySupported.getDeflectionEquation,
      Impl2.SimplySupported.getBendingMomentEquation,
      Impl2.SimplySupported.getShearForceEquation, hp, hm]

/-- C10 witness: two concrete beams differing only in `secondarySpan`
give the same simply-supported results at `load = 10`, `x = 2`. -/
theorem claim_C10_witness :
    Impl1.SimplySupported.getDeflectionEquation (Beam.mk 4 0 ⟨"spec", ⟨1, 1⟩⟩) 10 2 =
      Impl1.SimplySupported.getDeflectionEquation (Beam.mk 4 7 ⟨"spec", ⟨1, 1⟩⟩) 10 2 ∧
    Impl1.SimplySupported.getBendingMomentEquation (Beam.mk 4 0 ⟨"spec", ⟨1, 1⟩⟩) 10 2 =
      Impl1.SimplySupported.getBendingMomentEquation (Beam.mk 4 7 ⟨"spec", ⟨1, 1⟩⟩) 10 2 ∧
    Impl1.SimplySupported.getShearForceEquation (Beam.mk 4 0 ⟨"spec", ⟨1, 1⟩⟩) 10 2 =
      Impl1.SimplySupported.getShearForceEquation (Beam.mk 4 7 ⟨"spec", ⟨1, 1⟩⟩) 10 2 ∧
    Impl2.SimplySupported.getDeflectionEquation (Beam.mk 4 0 ⟨"spec", ⟨1, 1⟩⟩) 10 2 =
      Impl2.SimplySupported.getDeflectionEquation (Beam.mk 4 7 ⟨"spec", ⟨1, 1⟩⟩) 10 2 ∧
    Impl2.SimplySupported.getBendingMomentEquation (Beam.mk 4 0 ⟨"spec", ⟨1, 1⟩⟩) 10 2 =
      Impl2.SimplySupported.getBendingMomentEquation (Beam.mk 4 7 ⟨"spec", ⟨1, 1⟩⟩) 10 2 ∧
    Impl2.SimplySupported.getShearForceEquation (Beam.mk 4 0 ⟨"spec", ⟨1, 1⟩⟩) 10 2 =
      Impl2.SimplySupported.getShearForceEquation (Beam.mk 4 7 ⟨"spec", ⟨1, 1⟩⟩) 10 2 :=
  claim_C10_simply_supported_ignores_secondary_span
    (Beam.mk 4 0 ⟨"spec", ⟨1, 1⟩⟩) (Beam.mk 4 7 ⟨"spec", ⟨1, 1⟩⟩) 10 2 rfl rfl

/-- A concrete two-span beam used by the concrete scenarios:
`L1 = 3`, `L2 = 2` (with `EI = 1`, `j2 = 1`). -/
def twoSpanBeam : Beam := ⟨3, 2, ⟨"spec", ⟨1, 1⟩⟩⟩

/-- C3: the reactions computed by the second-version two-span analyzer
satisfy global equilibrium `R1 + R2 + R3 = w·(L1 + L2)`, exactly over
exact arithmetic. -/
theorem claim_C3_reactions_global_equilibrium (beam : Beam) (load : ℚ)
    (h1 : 0 < beam.primarySpan) (h2 : 0 < beam.secondarySpan) :
    Impl2.TwoSpanUnequal.R1 beam load + Impl2.TwoSpanUnequal.R2 beam load +
      Impl2.TwoSpanUnequal.R3 beam load =
      load * (beam.primarySpan + beam.secondarySpan) := by
  rw [Impl2.TwoSpanUnequal.R2]
  ring

/-- C3 witness: the spec's concrete scenario `L1 = 3`, `L2 = 2`, `w = 5`
gives `R1 + R2 + R3 = 25`, exactly. -/
theorem claim_C3_witness :
    Impl2.TwoSpanUnequal.R1 twoSpanBeam 5 + Impl2.TwoSpanUnequal.R2 twoSpanBeam 5 +
      Impl2.TwoSpanUnequal.R3 twoSpanBeam 5 = 25 := by
  have h := claim_C3_reactions_global_equilibrium twoSpanBeam 5 (by norm_num [twoSpanBeam])
    (by norm_num [twoSpanBeam])
  rw [h]
  norm_num [twoSpanBeam]

/-- C2: for `L1 > 0`, `L2 > 0` and `L1 < x < L1 + L2`, the second-version
two-span `getBendingMomentEquation` returns the point
`{x, y: R1·x + R2·(x − L1) − w·x²/2}` with the analyzer's own reactions. -/
theorem claim_C2_two_span_moment_second_span (beam : Beam) (load x : ℚ)
    (h1 : 0 < beam.primarySpan) (h2 : 0 < beam.secondarySpan)
    (hx1 : beam.primarySpan < x) (hx2 : x < beam.primarySpan + beam.secondarySpan) :
    Impl2.TwoSpanUnequal.getBendingMomentEquation beam load (.num x) =
      .point ⟨x, some (Impl2.TwoSpanUnequal.R1 beam load * x +
        Impl2.TwoSpanUnequal.R2 beam load * (x - beam.primarySpan) -
        load * x ^ 2 / 2)⟩ := by
  have hxpos : 0 < x := h1.trans hx1
  rw [Impl2.TwoSpanUnequal.getBendingMomentEquation]
  rw [if_neg (ne_of_gt hxpos), if_neg (fun hc => absurd hc.2 (not_lt.mpr hx1.le)),
    if_neg (ne_of_gt hx1), if_pos ⟨hx1, hx2⟩]

/-- C2 witness: at `L1 = 3`, `L2 = 2`, `w = 5`, `x = 4` the second-span
moment evaluates to `−7/8`. -/
theorem claim_C2_witness :
    Impl2.TwoSpanUnequal.getBendingMomentEquation twoSpanBeam 5 (.num 4) =
      .point ⟨4, some (-7 / 8)⟩ := by
  have h := claim_C2_two_span_moment_second_span twoSpanBeam 5 4 (by norm_num [twoSpanBeam])
    (by norm_num [twoSpanBeam]) (by norm_num [twoSpanBeam]) (by norm_num [twoSpanBeam])
  rw [h]
  norm_num [twoSpanBeam, Impl2.TwoSpanUnequal.R1, Impl2.TwoSpanUnequal.R2, Impl2.TwoSpanUnequal.R3, Impl2.TwoSpanUnequal.M1]

/-- C4: for `L1 > 0`, `L2 > 0`, the second-version two-span
`getShearForceEquation` at `x = L1` returns the ordered pair
`[{y: R1 − w·L1}, {y: R1 + R2 − w·L1}]`, whose second `y` minus first `y`
is exactly `R2`. -/
theorem claim_C4_shear_jump_at_interior_support (beam : Beam) (load : ℚ)
    (h1 : 0 < beam.primarySpan) (h2 : 0 < beam.secondarySpan) :
    Impl2.TwoSpanUnequal.getShearForceEquation beam load (.num beam.primarySpan) =
      .pair ⟨beam.primarySpan, some (Impl2.TwoSpanUnequal.R1 beam load -
          load * beam.primarySpan)⟩
        ⟨beam.primarySpan, some (Impl2.TwoSpanUnequal.R1 beam load +
          Impl2.TwoSpanUnequal.R2 beam load - load * beam.primarySpan)⟩ ∧
    (Impl2.TwoSpanUnequal.R1 beam load + Impl2.TwoSpanUnequal.R2 beam load -
        load * beam.primarySpan) -
      (Impl2.TwoSpanUnequal.R1 beam load - load * beam.primarySpan) =
      Impl2.TwoSpanUnequal.R2 beam load := by
  constructor
  · rw [Impl2.TwoSpanUnequal.getShearForceEquation]
    rw [if_neg (ne_of_gt h1), if_neg (fun hc => absurd hc.2 (lt_irrefl _)), if_pos rfl]
  · ring

/-- C4 witness: at `L1 = 3`, `L2 = 2`, `w = 5` the shear equation at
`x = 3` returns the pair `[−39/4, 67/8]` and the jump is `R2 = 145/8`. -/
theorem claim_C4_witness :
    Impl2.TwoSpanUnequal.getShearForceEquation twoSpanBeam 5 (.num 3) =
      .pair ⟨3, some (-39 / 4)⟩ ⟨3, some (67 / 8)⟩ ∧
    Impl2.TwoSpanUnequal.R2 twoSpanBeam 5 = 145 / 8 := by
  have h := claim_C4_shear_jump_at_interior_support twoSpanBeam 5 (by norm_num [twoSpanBeam])
    (by norm_num [twoSpanBeam])
  constructor
  · exact h.1.trans (by norm_num [twoSpanBeam, Impl2.TwoSpanUnequal.R1, Impl2.TwoSpanUnequal.R2, Impl2.TwoSpanUnequal.R3, Impl2.TwoSpanUnequal.M1])
  · norm_num [twoSpanBeam, Impl2.TwoSpanUnequal.R1, Impl2.TwoSpanUnequal.R2, Impl2.TwoSpanUnequal.R3, Impl2.TwoSpanUnequal.M1]

/-- C8: for `L1 > 0`, `L2 > 0`, the second-version two-span moment
equation at `x = L1` returns a pair whose two elements carry the same
`y`, namely `R1·L1 − w·L1²/2` (the left/right pair is not a jump). -/
theorem claim_C8_moment_pair_equal_at_interior_support (beam : Beam) (load : ℚ)
    (h1 : 0 < beam.primarySpan) (h2 : 0 < beam.secondarySpan) :
    Impl2.TwoSpanUnequal.getBendingMomentEquation beam load (.num beam.primarySpan) =
      .pair ⟨beam.primarySpan, some (Impl2.TwoSpanUnequal.R1 beam load * beam.primarySpan -
          load * beam.primarySpan ^ 2 / 2)⟩
        ⟨beam.primarySpan, some (Impl2.TwoSpanUnequal.R1 beam load * beam.primarySpan -
          load * beam.primarySpan ^ 2 / 2)⟩ := by
  rw [Impl2.TwoSpanUnequal.getBendingMomentEquation]
  rw [if_neg (ne_of_gt h1), if_neg (fun hc => absurd hc.2 (lt_irrefl _)), if_pos rfl]
  have e : Impl2.TwoSpanUnequal.R1 beam load * beam.primarySpan +
      Impl2.TwoSpanUnequal.R2 beam load * 0 - load * beam.primarySpan ^ 2 / 2 =
      Impl2.TwoSpanUnequal.R1 beam load * beam.primarySpan -
        load * beam.primarySpan ^ 2 / 2 := by
    ring
  rw [e]

/-- C8 witness: at `L1 = 3`, `L2 = 2`, `w = 5` the moment equation at
`x = 3` returns the pair `[−27/4, −27/4]` — both elements equal. -/
theorem claim_C8_witness :
    Impl2.TwoSpanUnequal.getBendingMomentEquation twoSpanBeam 5 (.num 3) =
      .pair ⟨3, some (-27 / 4)⟩ ⟨3, some (-27 / 4)⟩ := by
  have h := claim_C8_moment_pair_equal_at_interior_support twoSpanBeam 5
    (by norm_num [twoSpanBeam]) (by norm_num [twoSpanBeam])
  exact h.trans (by norm_num [twoSpanBeam, Impl2.TwoSpanUnequal.R1, Impl2.TwoSpanUnequal.R2, Impl2.TwoSpanUnequal.R3, Impl2.TwoSpanUnequal.M1])

/-- Whether an `Except` value is a success (the call did not throw). -/
def exceptIsOk {ε α : Type} (e : Except ε α) : Bool :=
  match e with
  | .ok _ => true
  | .error _ => false

/-- C5: the facade throws `Invalid condition` for any condition tag other
than the two registered ones, and never throws for a registered tag. -/
theorem claim_C5_facade_invalid_condition (beam : Beam) (load : ℚ) (condition : String)
    (h1 : condition ≠ "simply-supported") (h2 : condition ≠ "two-span-unequal") :
    (Impl2.getDeflection beam load condition = .error "Invalid condition" ∧
      Impl2.getBendingMoment beam load condition = .error "Invalid condition" ∧
      Impl2.getShearForce beam load condition = .error "Invalid condition") ∧
    (exceptIsOk (Impl2.getDeflection beam load "simply-supported") = true ∧
      exceptIsOk (Impl2.getBendingMoment beam load "simply-supported") = true ∧
      exceptIsOk (Impl2.getShearForce beam load "simply-supported") = true ∧
      exceptIsOk (Impl2.getDeflection beam load "two-span-unequal") = true ∧
      exceptIsOk (Impl2.getBendingMoment beam load "two-span-unequal") = true ∧
      exceptIsOk (Impl2.getShearForce beam load "two-span-unequal") = true) := by
  have ha : Impl2.analyzerFor condition = none := by
    rw [Impl2.analyzerFor, if_neg h1, if_neg h2]
  refine ⟨⟨?_, ?_, ?_⟩, ⟨rfl, rfl, rfl, rfl, rfl, rfl⟩⟩ <;>
    simp [Impl2.getDeflection, Impl2.getBendingMoment, Impl2.getShearForce, ha]

/-- C5 witness: the tag `"unknown"` makes all three facade calls throw
`Invalid condition`, while both registered tags succeed. -/
theorem claim_C5_witness :
    (Impl2.getDeflection specBeam 10 "unknown" = .error "Invalid condition" ∧
      Impl2.getBendingMoment specBeam 10 "unknown" = .error "Invalid condition" ∧
      Impl2.getShearForce specBeam 10 "unknown" = .error "Invalid condition") ∧
    (exceptIsOk (Impl2.getDeflection specBeam 10 "simply-supported") = true ∧
      exceptIsOk (Impl2.getBendingMoment specBeam 10 "simply-supported") = true ∧
      exceptIsOk (Impl2.getShearForce specBeam 10 "simply-supported") = true ∧
      exceptIsOk (Impl2.getDeflection specBeam 10 "two-span-unequal") = true ∧
      exceptIsOk (Impl2.getBendingMoment specBeam 10 "two-span-unequal") = true ∧
      exceptIsOk (Impl2.getShearForce specBeam 10 "two-span-unequal") = true) :=
  claim_C5_facade_invalid_condition specBeam 10 "unknown" (by decide) (by decide)

/-- C6 counterexample: the second-version deflection equations violate
the null-point convention out of domain: simply-supported returns the
object `{x, deflection: null}` (no `y` field) and two-span returns
`undefined`, at `x = -1`, instead of a point with `y = null`. -/
theorem claim_C6_counterexample :
    Impl2.SimplySupported.getDeflectionEquation specBeam 10 (-1) = .deflectionNull (-1) ∧
    Impl2.SimplySupported.getDeflectionEquation specBeam 10 (-1) ≠ .point ⟨-1, none⟩ ∧
    Impl2.TwoSpanUnequal.getDeflectionEquation twoSpanBeam 5 (.num (-1)) = .undefined ∧
    Impl2.TwoSpanUnequal.getDeflectionEquation twoSpanBeam 5 (.num (-1)) ≠
      .point ⟨-1, none⟩ := by
  have e1 : Impl2.SimplySupported.getDeflectionEquation specBeam 10 (-1) =
      .deflectionNull (-1) := by
    norm_num [Impl2.SimplySupported.getDeflectionEquation, specBeam]
  have e2 : Impl2.TwoSpanUnequal.getDeflectionEquation twoSpanBeam 5 (.num (-1)) =
      .undefined := by
    norm_num [Impl2.TwoSpanUnequal.getDeflectionEquation, twoSpanBeam]
  refine ⟨e1, ?_, e2, ?_⟩
  · rw [e1]
    exact fun h => EqResult.noConfusion h
  · rw [e2]
    exact fun h => EqResult.noConfusion h

/-- C6 amended: out of domain (`x < 0` or `x > L1 + L2`, spans
nonnegative), every moment and shear equation, and both first-version
deflection equations, return `{x, y: null}`; the second-version
simply-supported deflection instead returns `{x, deflection: null}` and
the second-version two-span deflection returns `undefined`. -/
theorem claim_C6_amended_out_of_domain (beam : Beam) (load x : ℚ)
    (hL1 : 0 ≤ beam.primarySpan) (hL2 : 0 ≤ beam.secondarySpan)
    (hx : x < 0 ∨ beam.primarySpan + beam.secondarySpan < x) :
    Impl1.SimplySupported.getDeflectionEquation beam load x = .point ⟨x, none⟩ ∧
    Impl1.SimplySupported.getBendingMomentEquation beam load x = .point ⟨x, none⟩ ∧
    Impl1.SimplySupported.getShearForceEquation beam load x = .point ⟨x, none⟩ ∧
    Impl1.TwoSpanUnequal.getDeflectionEquation beam load x = .point ⟨x, none⟩ ∧
    Impl1.TwoSpanUnequal.getBendingMomentEquation beam load x = .point ⟨x, none⟩ ∧
    Impl1.TwoSpanUnequal.getShearForceEquation beam load x = .point ⟨x, none⟩ ∧
    Impl2.SimplySupported.getBendingMomentEquation beam load x = .point ⟨x, none⟩ ∧
    Impl2.SimplySupported.getShearForceEquation beam load x = .point ⟨x, none⟩ ∧
    Impl2.TwoSpanUnequal.getBendingMomentEquation beam load (.num x) = .point ⟨x, none⟩ ∧
    Impl2.TwoSpanUnequal.getShearForceEquation beam load (.num x) = .point ⟨x, none⟩ ∧
    Impl2.SimplySupported.getDeflectionEquation beam load x = .deflectionNull x ∧
    Impl2.TwoSpanUnequal.getDeflectionEquation beam load (.num x) = .undefined := by
  have hnot1 : ¬(0 ≤ x ∧ x ≤ beam.primarySpan) := by
    rintro ⟨a, b⟩; rcases hx with h | h <;> linarith
  have hnot2 : ¬(beam.primarySpan < x ∧ x ≤ beam.primarySpan + beam.secondarySpan) := by
    rintro ⟨a, b⟩; rcases hx with h | h <;> linarith
  have hne0 : ¬(x = 0) := by
    intro a; rcases hx with h | h <;> (rw [a] at h; linarith)
  have hnot01 : ¬(0 < x ∧ x < beam.primarySpan) := by
    rintro ⟨a, b⟩; rcases hx with h | h <;> linarith
  have hneL1 : ¬(x = beam.primarySpan) := by
    intro a; rcases hx with h | h <;> (rw [a] at h; linarith)
  have hnot12 : ¬(beam.primarySpan < x ∧ x < beam.primarySpan + beam.secondarySpan) := by
    rintro ⟨a, b⟩; rcases hx with h | h <;> linarith
  have hneL : ¬(x = beam.primarySpan + beam.secondarySpan) := by
    intro a; rcases hx with h | h <;> (rw [a] at h; linarith)
  refine ⟨?_, ?_, ?_, ?_, ?_, ?_, ?_, ?_, ?_, ?_, ?_, ?_⟩
  · rw [Impl1.SimplySupported.getDeflectionEquation, if_neg hnot1]
  · rw [Impl1.SimplySupported.getBendingMomentEquation, if_neg hnot1]
  · rw [Impl1.SimplySupported.getShearForceEquation, if_neg hnot1]
  · rw [Impl1.TwoSpanUnequal.getDeflectionEquation, if_neg hnot1, if_neg hnot2]
  · rw [Impl1.TwoSpanUnequal.getBendingMomentEquation, if_neg hnot1, if_neg hnot2]
  · rw [Impl1.TwoSpanUnequal.getShearForceEquation, if_neg hnot1, if_neg hnot2]
  · rw [Impl2.SimplySupported.getBendingMomentEquation, if_neg hnot1]
  · rw [Impl2.SimplySupported.getShearForceEquation, if_neg hnot1]
  · rw [Impl2.TwoSpanUnequal.getBendingMomentEquation, if_neg hne0, if_neg hnot01,
      if_neg hneL1, if_neg hnot12, if_neg hneL]
  · rw [Impl2.TwoSpanUnequal.getShearForceEquation, if_neg hne0, if_neg hnot01,
      if_neg hneL1, if_neg hnot12, if_neg hneL]
  · rw [Impl2.SimplySupported.getDeflectionEquation, if_neg hnot1]
  · rw [Impl2.TwoSpanUnequal.getDeflectionEquation, if_neg hnot1, if_neg hnot2]

/-- C6 witness: the amended behaviour at the concrete beam
`L1 = 3, L2 = 2`, load `5`, out-of-domain position `x = -1`. -/
theorem claim_C6_witness :
    ((0 : ℚ) ≤ twoSpanBeam.primarySpan ∧ (0 : ℚ) ≤ twoSpanBeam.secondarySpan ∧
      ((-1 : ℚ) < 0 ∨ twoSpanBeam.primarySpan + twoSpanBeam.secondarySpan < -1)) ∧
    (Impl1.SimplySupported.getDeflectionEquation twoSpanBeam 5 (-1) = .point ⟨-1, none⟩ ∧
      Impl1.SimplySupported.getBendingMomentEquation twoSpanBeam 5 (-1) = .point ⟨-1, none⟩ ∧
      Impl1.SimplySupported.getShearForceEquation twoSpanBeam 5 (-1) = .point ⟨-1, none⟩ ∧
      Impl1.TwoSpanUnequal.getDeflectionEquation twoSpanBeam 5 (-1) = .point ⟨-1, none⟩ ∧
      Impl1.TwoSpanUnequal.getBendingMomentEquation twoSpanBeam 5 (-1) = .point ⟨-1, none⟩ ∧
      Impl1.TwoSpanUnequal.getShearForceEquation twoSpanBeam 5 (-1) = .point ⟨-1, none⟩ ∧
      Impl2.SimplySupported.getBendingMomentEquation twoSpanBeam 5 (-1) = .point ⟨-1, none⟩ ∧
      Impl2.SimplySupported.getShearForceEquation twoSpanBeam 5 (-1) = .point ⟨-1, none⟩ ∧
      Impl2.TwoSpanUnequal.getBendingMomentEquation twoSpanBeam 5 (.num (-1)) =
        .point ⟨-1, none⟩ ∧
      Impl2.TwoSpanUnequal.getShearForceEquation twoSpanBeam 5 (.num (-1)) =
        .point ⟨-1, none⟩ ∧
      Impl2.SimplySupported.getDeflectionEquation twoSpanBeam 5 (-1) = .deflectionNull (-1) ∧
      Impl2.TwoSpanUnequal.getDeflectionEquation twoSpanBeam 5 (.num (-1)) = .undefined) :=
  ⟨⟨by norm_num [twoSpanBeam], by norm_num [twoSpanBeam], Or.inl (by norm_num)⟩,
    claim_C6_amended_out_of_domain twoSpanBeam 5 (-1) (by norm_num [twoSpanBeam])
      (by norm_num [twoSpanBeam]) (Or.inl (by norm_num))⟩

/-- C7 counterexample: the second-version two-span deflection equation
has no `typeof` guard; at a non-numeric argument it returns `undefined`,
not the descriptive invalid-input string. -/
theorem claim_C7_counterexample :
    Impl2.TwoSpanUnequal.getDeflectionEquation twoSpanBeam 5 JsInput.nonNum = .undefined ∧
    Impl2.TwoSpanUnequal.getDeflectionEquation twoSpanBeam 5 JsInput.nonNum ≠
      .invalidInput "Invalid input: x must be a number." :=
  ⟨rfl, by simp [Impl2.TwoSpanUnequal.getDeflectionEquation]⟩

/-- C7 amended: for every beam and load, the second-version two-span
bending-moment and shear-force equations return the descriptive string
for non-numeric input, while the deflection equation returns `undefined`
(an absent result). -/
theorem claim_C7_amended_non_numeric_input (beam : Beam) (load : ℚ) :
    Impl2.TwoSpanUnequal.getBendingMomentEquation beam load JsInput.nonNum =
      .invalidInput "Invalid input: x must be a number." ∧
    Impl2.TwoSpanUnequal.getShearForceEquation beam load JsInput.nonNum =
      .invalidInput "Invalid input: x must be a number." ∧
    Impl2.TwoSpanUnequal.getDeflectionEquation beam load JsInput.nonNum = .undefined :=
  ⟨rfl, rfl, rfl⟩
